import Mathlib

/-!
Verification of the crypto-sentiment aggregator (`src/sentiment_generator.py`)
against its natural-language specification.

Modelling conventions:
* Python `float` arithmetic is idealised as exact rational arithmetic (`ℚ`);
  all constants in the script (0.20, 0.15, 3.0, 30.0, ...) are represented
  exactly.
* Python's `round` (round-half-to-even, "banker's rounding") is modelled by
  `pyRound` below.
* JSON values read from the persisted state files are modelled by the
  inductive type `Json`; Python `bool` counts as numeric for
  `isinstance(x, (int, float))`, so `Json.bool` carries a numeric value 0/1.
* Fallible fetches (`requests.get` + parsing) are modelled by `Option`-valued
  inputs: `none` is the exception path that yields the documented fallback.
* Code that can raise (`compute_deltas` on a non-dict `"drivers"` entry) is
  modelled with an `Option` result, `none` being an uncaught exception.
-/

namespace Sentiment

/-- Python's `round` on an exact rational: nearest integer, ties to even. -/
def pyRound (q : ℚ) : ℤ :=
  if q - (⌊q⌋ : ℚ) < 1/2 then ⌊q⌋
  else if 1/2 < q - (⌊q⌋ : ℚ) then ⌊q⌋ + 1
  else if ⌊q⌋ % 2 = 0 then ⌊q⌋ else ⌊q⌋ + 1

/-- Source `price_action_sentiment(change_24h)`: clamp the 24h %
change to `[-10, 10]`, map via `50 + ch * 3.0`, round, clamp to `[0, 100]`. -/
def price_action_sentiment (change_24h : ℚ) : ℤ :=
  let ch := max (-10) (min 10 change_24h)
  let value := 50 + ch * 3
  max 0 (min 100 (pyRound value))

/-- JSON values, as produced by `json.load`.  `bool` is kept separate because
Python's `isinstance(x, (int, float))` is `True` for `bool` (with numeric
value 1/0), while `str`, `None`, lists and dicts are non-numeric. -/
inductive Json where
  | null : Json
  | bool : Bool → Json
  | num : ℚ → Json
  | str : String → Json
  | arr : List Json → Json
  | obj : List (String × Json) → Json

/-- Python `d.get(k)` on a dict modelled as an association list. -/
def objGet (kvs : List (String × Json)) (k : String) : Option Json :=
  (kvs.find? (fun p => p.1 = k)).map (fun p => p.2)

/-- The numeric value of a JSON value that passes
`isinstance(x, (int, float))` (booleans count, with values 1 and 0). -/
def jsonNumVal : Json → Option ℚ
  | .num q => some q
  | .bool b => some (if b then 1 else 0)
  | _ => none

/-- The three ways a persisted file read can go wrong, plus a successful
parse of arbitrary JSON. -/
inductive FileRead where
  | missing : FileRead
  | unreadable : FileRead
  | malformed : FileRead
  | content : Json → FileRead

/-- Source `load_previous_state()`: `{}` if the file is missing or open/parse
raises; otherwise whatever JSON the file holds (no shape check). -/
def load_previous_state : FileRead → Json
  | .missing => .obj []
  | .unreadable => .obj []
  | .malformed => .obj []
  | .content j => j

/-- Source `load_history()`, projected to its `"points"` list: `[]` if the file is
missing, unreadable or malformed, or if the parsed JSON is not a dict whose
`"points"` entry is a list; otherwise that list. -/
def load_history : FileRead → List Json
  | .content (.obj kvs) =>
      match objGet kvs "points" with
      | some (.arr ps) => ps
      | _ => []
  | _ => []

/-- Source `compute_deltas(current, previous)`.  `previous.get("drivers", {})` is
only taken on a dict (`isinstance` guard), but the result is *not* checked
to be a dict before `.get(key)` is called on it: a non-dict `"drivers"`
entry raises `AttributeError`, modelled as `none`. -/
def compute_deltas (current : List (String × ℤ)) (previous : Json) :
    Option (List (String × ℤ)) :=
  let prev_drivers : Json :=
    match previous with
    | .obj kvs => (objGet kvs "drivers").getD (.obj [])
    | _ => .obj []
  match prev_drivers with
  | .obj pk =>
      some (current.map (fun p =>
        (p.1,
          match (objGet pk p.1).bind jsonNumVal with
          | some prev_val => pyRound ((p.2 : ℚ) - prev_val)
          | none => 0)))
  | _ => none

/-- One history entry `{timestamp, total, drivers}`. -/
structure HistEntry where
  timestamp : String
  total : ℤ
  drivers : List (String × ℤ)

/-- The pure core of `update_history`: append the new entry, then keep only
the last `MAX_HISTORY_POINTS = 200` entries (`points[-200:]`). -/
def update_history (points : List HistEntry) (entry : HistEntry) :
    List HistEntry :=
  let ps := points ++ [entry]
  if ps.length > 200 then ps.drop (ps.length - 200) else ps

/-- Source `_get_prev_driver_value(prev_state, name, default)`. -/
def get_prev_driver_value (prev_state : Json) (name : String)
    (default : ℚ) : ℚ :=
  match prev_state with
  | .obj kvs =>
      match (objGet kvs "drivers").getD (.obj []) with
      | .obj dk =>
          match (objGet dk name).bind jsonNumVal with
          | some v => v
          | none => default
      | _ => default
  | _ => default

/-- Source `simulate_driver(name, prev_state, base, volatility, mean_reversion)`.
The draw `noise = random.uniform(-volatility, volatility)` is passed
explicitly; `volatility` itself enters the computation only through that
draw, recorded by the hypothesis `-volatility ≤ noise ≤ volatility` where a
theorem needs it. -/
def simulate_driver (name : String) (prev_state : Json) (base : ℚ)
    (volatility : ℚ) (mean_reversion : ℚ) (noise : ℚ) : ℤ :=
  let prev_val := get_prev_driver_value prev_state name base
  let reversion := mean_reversion * (base - prev_val)
  let new_val := prev_val + noise + reversion
  max 0 (min 100 (pyRound new_val))

/-- Source `get_news_sentiment`: `simulate_driver` with base 50, volatility 6,
mean reversion 0.4. -/
def get_news_sentiment (prev_state : Json) (noise : ℚ) : ℤ :=
  simulate_driver "news" prev_state 50 6 (2/5) noise

/-- Source `get_social_sentiment`: base 50, volatility 8, mean reversion 0.45. -/
def get_social_sentiment (prev_state : Json) (noise : ℚ) : ℤ :=
  simulate_driver "social" prev_state 50 8 (9/20) noise

/-- Source `get_onchain_sentiment`: base 50, volatility 5, mean reversion 0.35. -/
def get_onchain_sentiment (prev_state : Json) (noise : ℚ) : ℤ :=
  simulate_driver "on_chain" prev_state 50 5 (7/20) noise

/-- The success-path core of `get_liquidity_sentiment`, as a function of the
fetched current volume and the extracted history of volumes. -/
def liquidity_core (vol_now : ℚ) (vols : List ℚ) : ℤ :=
  if vols = [] then 50
  else
    let avg_vol := vols.sum / (vols.length : ℚ)
    if avg_vol ≤ 0 then 50
    else
      let r := max (1/4) (min (5/2) (vol_now / avg_vol))
      let score := 50 + (r - 1) * 30
      max 0 (min 100 (pyRound score))

/-- Source `get_liquidity_sentiment()`: 50 on any fetch/parse exception (`none`),
otherwise the core mapping. -/
def get_liquidity_sentiment : Option (ℚ × List ℚ) → ℤ
  | none => 50
  | some (v, vols) => liquidity_core v vols

/-- The six per-driver weights, in the iteration order of the `weights`
dict in `build_sentiment_payload`. -/
structure Weights where
  fear_greed : ℚ
  news : ℚ
  social : ℚ
  price_action : ℚ
  on_chain : ℚ
  liquidity : ℚ

/-- The weights hard-coded in `build_sentiment_payload`:
0.20, 0.15, 0.15, 0.20, 0.15, 0.15. -/
def codeWeights : Weights :=
  { fear_greed := 1/5, news := 3/20, social := 3/20,
    price_action := 1/5, on_chain := 3/20, liquidity := 3/20 }

/-- The six current driver values. -/
structure DriverVals where
  fear_greed : ℤ
  news : ℤ
  social : ℤ
  price_action : ℤ
  on_chain : ℤ
  liquidity : ℤ

/-- Step 4 of `build_sentiment_payload`: accumulate
`numerator += driver_values[key] * w` and `denom += w` over the weights
dict, then `int(round(numerator / denom)) if denom > 0 else 50`. -/
def compute_total (dv : DriverVals) (w : Weights) : ℤ :=
  let numerator : ℚ :=
    (dv.fear_greed : ℚ) * w.fear_greed + (dv.news : ℚ) * w.news
      + (dv.social : ℚ) * w.social + (dv.price_action : ℚ) * w.price_action
      + (dv.on_chain : ℚ) * w.on_chain + (dv.liquidity : ℚ) * w.liquidity
  let denom : ℚ :=
    w.fear_greed + w.news + w.social + w.price_action + w.on_chain
      + w.liquidity
  if 0 < denom then pyRound (numerator / denom) else 50

/-- All run-dependent data a single invocation of
`build_sentiment_payload` consumes: the two fallible fetches (`none` is the
exception path), the fallible liquidity fetch, the three uniform draws of
the simulator, and the wall-clock timestamp string. -/
structure Inputs where
  fgFetch : Option ℤ
  changeFetch : Option ℚ
  liqFetch : Option (ℚ × List ℚ)
  noiseNews : ℚ
  noiseSocial : ℚ
  noiseOnchain : ℚ
  nowIso : String

/-- Source `get_fear_greed()`: the parsed index on success, 50 on any exception.
No clamping is applied to a successfully parsed value. -/
def get_fear_greed (fetch : Option ℤ) : ℤ := fetch.getD 50

/-- Source `get_btc_price_change()`: the parsed 24h % change, 0.0 on exception. -/
def get_btc_price_change (fetch : Option ℚ) : ℚ := fetch.getD 0

/-- One structured driver record of the payload. -/
structure DriverRecord where
  label : String
  value : ℤ
  delta : ℤ

/-- The Sentiment Payload assembled by `build_sentiment_payload` (the
`timestamp` field is `Inputs.nowIso`, carried unchanged). -/
structure Payload where
  timestamp : String
  total_value : ℤ
  d_fear_greed : DriverRecord
  d_news : DriverRecord
  d_social : DriverRecord
  d_price_action : DriverRecord
  d_on_chain : DriverRecord
  d_liquidity : DriverRecord
  value : ℤ
  fear_greed : ℤ
  news_sentiment : ℤ
  price_sentiment : ℤ
  price_change_24h : ℚ
  liquidity_sentiment : ℤ

/-- Everything one run produces: the returned payload, the snapshot written
by `save_state`, and the history written by `update_history`. -/
structure RunResult where
  payload : Payload
  newState : List (String × ℤ)
  newHistory : List HistEntry

/-- Source `build_sentiment_payload()`, as a function of the run's inputs, the
previously persisted state (`load_previous_state`) and the previously
persisted history points (what `load_history` yields inside
`update_history`).  `none` is the uncaught `AttributeError` escaping from
`compute_deltas`.  `deltas[k]` is modelled as `lookup k` with default 0;
the default is unreachable because `compute_deltas` keeps the keys of
`current`. -/
def build_sentiment_payload (inp : Inputs) (prev_state : Json)
    (hist : List HistEntry) : Option RunResult :=
  let fg := get_fear_greed inp.fgFetch
  let change_24h := get_btc_price_change inp.changeFetch
  let news := get_news_sentiment prev_state inp.noiseNews
  let social := get_social_sentiment prev_state inp.noiseSocial
  let onchain := get_onchain_sentiment prev_state inp.noiseOnchain
  let price_sent := price_action_sentiment change_24h
  let liquidity := get_liquidity_sentiment inp.liqFetch
  let driver_values : List (String × ℤ) :=
    [("fear_greed", fg), ("news", news), ("social", social),
     ("price_action", price_sent), ("on_chain", onchain),
     ("liquidity", liquidity)]
  match compute_deltas driver_values prev_state with
  | none => none
  | some deltas =>
    let dget := fun k => ((deltas.find? (fun p => p.1 = k)).map
      (fun p => p.2)).getD 0
    let total_value :=
      compute_total
        { fear_greed := fg, news := news, social := social,
          price_action := price_sent, on_chain := onchain,
          liquidity := liquidity } codeWeights
    let payload : Payload :=
      { timestamp := inp.nowIso
        total_value := total_value
        d_fear_greed :=
          { label := "Fear & Greed", value := fg, delta := dget "fear_greed" }
        d_news :=
          { label := "News Sentiment", value := news, delta := dget "news" }
        d_social :=
          { label := "Social Buzz", value := social, delta := dget "social" }
        d_price_action :=
          { label := "Price Action", value := price_sent,
            delta := dget "price_action" }
        d_on_chain :=
          { label := "On-chain Activity", value := onchain,
            delta := dget "on_chain" }
        d_liquidity :=
          { label := "Liquidity", value := liquidity,
            delta := dget "liquidity" }
        value := total_value
        fear_greed := fg
        news_sentiment := news
        price_sentiment := price_sent
        price_change_24h := change_24h
        liquidity_sentiment := liquidity }
    some
      { payload := payload
        newState := driver_values
        newHistory :=
          update_history hist
            { timestamp := inp.nowIso, total := total_value,
              drivers := driver_values } }

/-- The total of the six weights of a `Weights` record (the final value of
`denom` in the weighting loop). -/
def wsum (w : Weights) : ℚ :=
  w.fear_greed + w.news + w.social + w.price_action + w.on_chain
    + w.liquidity

/-- Python `sum(vols) / len(vols)`: the mean used by `get_liquidity_sentiment`
(0 on the empty list, where the source returns 50 before dividing). -/
def listMean (vols : List ℚ) : ℚ := vols.sum / (vols.length : ℚ)

/-- The numeric previous value `_get_prev_driver_value` finds, if any:
`none` exactly when the snapshot is not a dict, its `"drivers"` entry is
not a dict, the name is absent, or the stored value is non-numeric. -/
def prev_num (prev_state : Json) (name : String) : Option ℚ :=
  match prev_state with
  | .obj kvs =>
      match (objGet kvs "drivers").getD (.obj []) with
      | .obj dk => (objGet dk name).bind jsonNumVal
      | _ => none
  | _ => none

/-- A blank history entry, used as a concrete instance in witnesses. -/
def histE0 : HistEntry := { timestamp := "", total := 0, drivers := [] }

/-- A run whose fear/greed fetch parses the out-of-range index value 150
and whose other inputs are all neutral. -/
def cexInput : Inputs :=
  { fgFetch := some 150, changeFetch := some 0, liqFetch := none,
    noiseNews := 0, noiseSocial := 0, noiseOnchain := 0, nowIso := "" }

/-- A fully neutral first run: every fetch fails over to its fallback and
every noise draw is 0. -/
def inpWit : Inputs :=
  { fgFetch := none, changeFetch := none, liqFetch := none,
    noiseNews := 0, noiseSocial := 0, noiseOnchain := 0, nowIso := "" }

/-- The driver values `inpWit` produces: every driver at 50. -/
def valsWit : List (String × ℤ) :=
  [("fear_greed", 50), ("news", 50), ("social", 50), ("price_action", 50),
   ("on_chain", 50), ("liquidity", 50)]

/-- The run result of `build_sentiment_payload` on `inpWit` from empty
state and empty history. -/
def runWit : RunResult :=
  { payload :=
      { timestamp := ""
        total_value := 50
        d_fear_greed := { label := "Fear & Greed", value := 50, delta := 0 }
        d_news := { label := "News Sentiment", value := 50, delta := 0 }
        d_social := { label := "Social Buzz", value := 50, delta := 0 }
        d_price_action := { label := "Price Action", value := 50, delta := 0 }
        d_on_chain :=
          { label := "On-chain Activity", value := 50, delta := 0 }
        d_liquidity := { label := "Liquidity", value := 50, delta := 0 }
        value := 50
        fear_greed := 50
        news_sentiment := 50
        price_sentiment := 50
        price_change_24h := 0
        liquidity_sentiment := 50 }
    newState := valsWit
    newHistory := [{ timestamp := "", total := 50, drivers := valsWit }] }

theorem floor_le_pyRound (q : ℚ) : ⌊q⌋ ≤ pyRound q := by
  unfold pyRound
  split
  · exact le_refl _
  · split
    · exact Int.le_add_one (le_refl _)
    · split
      · exact le_refl _
      · exact Int.le_add_one (le_refl _)

theorem pyRound_le_floor_add_one (q : ℚ) : pyRound q ≤ ⌊q⌋ + 1 := by
  unfold pyRound
  split
  · exact Int.le_add_one (le_refl _)
  · split
    · exact le_refl _
    · split
      · exact Int.le_add_one (le_refl _)
      · exact le_refl _

theorem le_pyRound_of_le (n : ℤ) (q : ℚ) (h : (n : ℚ) ≤ q) : n ≤ pyRound q :=
  le_trans (Int.le_floor.mpr h) (floor_le_pyRound q)

theorem pyRound_le_of_le (q : ℚ) (n : ℤ) (h : q ≤ (n : ℚ)) : pyRound q ≤ n := by
  have hfl : ⌊q⌋ ≤ n := by
    have h2 := Int.floor_mono h
    rwa [Int.floor_intCast] at h2
  rcases lt_or_eq_of_le hfl with hlt | heq
  · exact le_trans (pyRound_le_floor_add_one q) (by omega)
  · -- ⌊q⌋ = n, so q - ⌊q⌋ ≤ 0 < 1/2 and pyRound q = ⌊q⌋ = n
    have hq : q - (⌊q⌋ : ℚ) < 1/2 := by
      have hle : q ≤ (⌊q⌋ : ℚ) := by rw [heq]; exact h
      linarith
    unfold pyRound
    rw [if_pos hq, heq]

theorem pyRound_intCast (n : ℤ) : pyRound (n : ℚ) = n := by
  have h₁ : n ≤ pyRound (n : ℚ) := le_pyRound_of_le n _ (le_refl _)
  have h₂ : pyRound (n : ℚ) ≤ n := pyRound_le_of_le _ n (le_refl _)
  omega

theorem clamp_0_100_bounds (x : ℤ) :
    0 ≤ max 0 (min 100 x) ∧ max 0 (min 100 x) ≤ 100 := by omega

theorem simulate_driver_bounds (name : String) (prev : Json)
    (base volatility mr noise : ℚ) :
    0 ≤ simulate_driver name prev base volatility mr noise
      ∧ simulate_driver name prev base volatility mr noise ≤ 100 := by
  unfold simulate_driver
  exact clamp_0_100_bounds _

theorem price_action_sentiment_bounds (change : ℚ) :
    0 ≤ price_action_sentiment change ∧ price_action_sentiment change ≤ 100 := by
  unfold price_action_sentiment
  exact clamp_0_100_bounds _

theorem liquidity_core_bounds (v : ℚ) (vols : List ℚ) :
    0 ≤ liquidity_core v vols ∧ liquidity_core v vols ≤ 100 := by
  simp only [liquidity_core]
  split
  · omega
  · split
    · omega
    · exact clamp_0_100_bounds _

theorem get_liquidity_sentiment_bounds (o : Option (ℚ × List ℚ)) :
    0 ≤ get_liquidity_sentiment o ∧ get_liquidity_sentiment o ≤ 100 := by
  cases o with
  | none => simp [get_liquidity_sentiment]
  | some p => exact liquidity_core_bounds p.1 p.2

theorem compute_total_codeWeights_bounds (dv : DriverVals)
    (h1 : 0 ≤ dv.fear_greed ∧ dv.fear_greed ≤ 100)
    (h2 : 0 ≤ dv.news ∧ dv.news ≤ 100)
    (h3 : 0 ≤ dv.social ∧ dv.social ≤ 100)
    (h4 : 0 ≤ dv.price_action ∧ dv.price_action ≤ 100)
    (h5 : 0 ≤ dv.on_chain ∧ dv.on_chain ≤ 100)
    (h6 : 0 ≤ dv.liquidity ∧ dv.liquidity ≤ 100) :
    0 ≤ compute_total dv codeWeights ∧ compute_total dv codeWeights ≤ 100 := by
  have c1 : (0 : ℚ) ≤ (dv.fear_greed : ℚ) ∧ (dv.fear_greed : ℚ) ≤ 100 := by
    exact_mod_cast h1
  have c2 : (0 : ℚ) ≤ (dv.news : ℚ) ∧ (dv.news : ℚ) ≤ 100 := by
    exact_mod_cast h2
  have c3 : (0 : ℚ) ≤ (dv.social : ℚ) ∧ (dv.social : ℚ) ≤ 100 := by
    exact_mod_cast h3
  have c4 : (0 : ℚ) ≤ (dv.price_action : ℚ) ∧ (dv.price_action : ℚ) ≤ 100 := by
    exact_mod_cast h4
  have c5 : (0 : ℚ) ≤ (dv.on_chain : ℚ) ∧ (dv.on_chain : ℚ) ≤ 100 := by
    exact_mod_cast h5
  have c6 : (0 : ℚ) ≤ (dv.liquidity : ℚ) ∧ (dv.liquidity : ℚ) ≤ 100 := by
    exact_mod_cast h6
  unfold compute_total codeWeights
  norm_num
  constructor
  · refine le_pyRound_of_le 0 _ ?_
    push_cast
    linarith [c1.1, c2.1, c3.1, c4.1, c5.1, c6.1]
  · refine pyRound_le_of_le _ 100 ?_
    push_cast
    linarith [c1.2, c2.2, c3.2, c4.2, c5.2, c6.2]

/-- C3: `price_action_sentiment(change)` clamps `change` to `[-10, 10]`,
maps it via `50 + change*3`, rounds to the nearest integer and clamps to
`[0, 100]`; in particular it maps 0 to 50, 10 to 80, -10 to 20, and agrees
at 25 and 10. -/
theorem price_action_sentiment_spec :
    (∀ change : ℚ, price_action_sentiment change
        = max 0 (min 100 (pyRound (50 + max (-10) (min 10 change) * 3))))
    ∧ price_action_sentiment 0 = 50
    ∧ price_action_sentiment 10 = 80
    ∧ price_action_sentiment (-10) = 20
    ∧ price_action_sentiment 25 = price_action_sentiment 10 := by
  refine ⟨fun change => rfl, ?_, ?_, ?_, ?_⟩ <;>
    norm_num [price_action_sentiment, pyRound]

/-- C2: the aggregate total is the rounded weighted average of the six
driver values with weights 0.20/0.20/0.15/0.15/0.15/0.15 (summing to 1);
with a zero total weight it defaults to 50; six drivers at 50 give
exactly 50. -/
theorem compute_total_spec :
    wsum codeWeights = 1
    ∧ (∀ dv : DriverVals, compute_total dv codeWeights
        = pyRound ((dv.fear_greed : ℚ) * (1/5) + (dv.price_action : ℚ) * (1/5)
            + (dv.news : ℚ) * (3/20) + (dv.social : ℚ) * (3/20)
            + (dv.on_chain : ℚ) * (3/20) + (dv.liquidity : ℚ) * (3/20)))
    ∧ (∀ (dv : DriverVals) (w : Weights), wsum w = 0 →
        compute_total dv w = 50)
    ∧ compute_total ⟨50, 50, 50, 50, 50, 50⟩ codeWeights = 50 := by
  refine ⟨by norm_num [wsum, codeWeights], ?_, ?_, ?_⟩
  · intro dv
    unfold compute_total codeWeights
    norm_num
    ring_nf
  · intro dv w h
    unfold compute_total
    have hd : w.fear_greed + w.news + w.social + w.price_action
        + w.on_chain + w.liquidity = 0 := h
    rw [hd]
    norm_num
  · norm_num [compute_total, codeWeights, pyRound]

theorem compute_total_spec_witness :
    compute_total ⟨1, 2, 3, 4, 5, 6⟩ ⟨0, 0, 0, 0, 0, 0⟩ = 50 :=
  compute_total_spec.2.2.1 ⟨1, 2, 3, 4, 5, 6⟩ ⟨0, 0, 0, 0, 0, 0⟩
    (by simp [wsum])

/-- C4: the liquidity score is 50 on an empty history or non-positive mean,
and otherwise rounds and clamps `50 + (clamp(vol_now/mean, 0.25, 2.5) - 1) * 30`;
`vol_now` equal to the mean gives 50, and any `vol_now` at or beyond 2.5
times the mean gives the same score as the clamp boundary 2.5. -/
theorem liquidity_core_spec :
    (∀ v : ℚ, liquidity_core v [] = 50)
    ∧ (∀ (v : ℚ) (vols : List ℚ), listMean vols ≤ 0 →
        liquidity_core v vols = 50)
    ∧ (∀ (v : ℚ) (vols : List ℚ), 0 < listMean vols →
        liquidity_core v vols
          = max 0 (min 100 (pyRound
              (50 + (max (1/4) (min (5/2) (v / listMean vols)) - 1) * 30))))
    ∧ (∀ vols : List ℚ, vols ≠ [] → liquidity_core (listMean vols) vols = 50)
    ∧ (∀ (v : ℚ) (vols : List ℚ), 0 < listMean vols →
        (5/2) * listMean vols ≤ v →
        liquidity_core v vols = liquidity_core ((5/2) * listMean vols) vols) :=
  by
  have hne : ∀ vols : List ℚ, 0 < listMean vols → vols ≠ [] := by
    intro vols h hcon
    subst hcon
    simp [listMean] at h
  refine ⟨?_, ?_, ?_, ?_, ?_⟩
  · intro v; simp [liquidity_core]
  · intro v vols h
    simp only [liquidity_core]
    rcases eq_or_ne vols [] with rfl | hv
    · simp
    · rw [if_neg hv,
        show vols.sum / (vols.length : ℚ) = listMean vols from rfl,
        if_pos h]
  · intro v vols h
    simp only [liquidity_core]
    rw [if_neg (hne vols h),
      show vols.sum / (vols.length : ℚ) = listMean vols from rfl,
      if_neg (not_le.mpr h)]
  · intro vols hv
    simp only [liquidity_core]
    rw [if_neg hv,
      show vols.sum / (vols.length : ℚ) = listMean vols from rfl]
    rcases le_or_lt (listMean vols) 0 with h0 | h0
    · rw [if_pos h0]
    · rw [if_neg (not_le.mpr h0)]
      have hm : listMean vols ≠ 0 := ne_of_gt h0
      rw [div_self hm]
      norm_num [pyRound]
  · intro v vols h hv
    have hv0 : vols ≠ [] := hne vols h
    simp only [liquidity_core]
    rw [if_neg hv0,
      show vols.sum / (vols.length : ℚ) = listMean vols from rfl,
      if_neg (not_le.mpr h), if_neg (not_le.mpr h)]
    have e1 : min (5/2) (v / listMean vols) = 5/2 := by
      refine min_eq_left ?_
      rw [le_div_iff₀ h]
      linarith
    have e2 : (5/2) * listMean vols / listMean vols = 5/2 := by
      have hm : listMean vols ≠ 0 := ne_of_gt h
      field_simp
      ring
    rw [e1, e2]
    simp [hv0]

theorem liquidity_core_spec_witness :
    liquidity_core (listMean [2]) [2] = 50 :=
  liquidity_core_spec.2.2.2.1 [2] (List.cons_ne_nil 2 [])

theorem update_history_length (pts : List HistEntry) (e : HistEntry) :
    (update_history pts e).length = min (pts.length + 1) 200 := by
  simp only [update_history]
  split
  next h =>
    simp only [List.length_append, List.length_cons, List.length_nil,
      gt_iff_lt] at h
    simp only [List.length_drop, List.length_append, List.length_cons,
      List.length_nil]
    omega
  next h =>
    simp only [List.length_append, List.length_cons, List.length_nil,
      gt_iff_lt, not_lt] at h
    simp only [List.length_append, List.length_cons, List.length_nil]
    omega

theorem update_history_eq_drop (pts : List HistEntry) (e : HistEntry) :
    update_history pts e = (pts ++ [e]).drop (pts.length + 1 - 200) := by
  simp only [update_history]
  split
  next h =>
    have hl : (pts ++ [e]).length = pts.length + 1 := by simp
    rw [hl]
  next h =>
    simp only [List.length_append, List.length_cons, List.length_nil,
      gt_iff_lt, not_lt] at h
    rw [show pts.length + 1 - 200 = 0 from by omega, List.drop_zero]

/-- C7: appending one entry and truncating keeps the most recent entries in
order and never more than 200 of them; a 201st entry pushed into a full log
of 200 drops exactly the oldest one, so the new first element is the old
second element and the new last element is the appended entry. -/
theorem update_history_spec :
    (∀ (pts : List HistEntry) (e : HistEntry),
        (update_history pts e).length = min (pts.length + 1) 200)
    ∧ (∀ (pts : List HistEntry) (e : HistEntry),
        update_history pts e = (pts ++ [e]).drop (pts.length + 1 - 200))
    ∧ (∀ (pts : List HistEntry) (e : HistEntry), pts.length = 200 →
        (update_history pts e).length = 200
        ∧ (update_history pts e).head? = pts[1]?
        ∧ (update_history pts e).getLast? = some e) := by
  refine ⟨update_history_length, update_history_eq_drop, ?_⟩
  intro pts e h200
  refine ⟨by rw [update_history_length, h200]; omega, ?_, ?_⟩
  · rw [update_history_eq_drop, h200,
      show (200 + 1 - 200 : ℕ) = 1 from rfl, List.head?_drop]
    exact List.getElem?_append_left (by omega)
  · rw [update_history_eq_drop, h200,
      show (200 + 1 - 200 : ℕ) = 1 from rfl]
    obtain ⟨a, tl, rfl⟩ : ∃ a tl, pts = a :: tl := by
      cases pts with
      | nil => simp at h200
      | cons a tl => exact ⟨a, tl, rfl⟩
    simp only [List.cons_append, List.drop_succ_cons, List.drop_zero]
    exact List.getLast?_concat tl

theorem update_history_spec_witness :
    (update_history (List.replicate 200 histE0) histE0).length = 200
    ∧ (update_history (List.replicate 200 histE0) histE0).head?
      = (List.replicate 200 histE0)[1]?
    ∧ (update_history (List.replicate 200 histE0) histE0).getLast?
      = some histE0 :=
  update_history_spec.2.2 (List.replicate 200 histE0) histE0
    (List.length_replicate 200 histE0)

theorem get_prev_driver_value_eq (prev : Json) (name : String) (d : ℚ) :
    get_prev_driver_value prev name d = (prev_num prev name).getD d := by
  unfold get_prev_driver_value prev_num
  cases prev with
  | obj kvs =>
      cases hdr : (objGet kvs "drivers").getD (.obj []) with
      | obj dk =>
          simp only [hdr]
          cases hnum : (objGet dk name).bind jsonNumVal with
          | none => simp [hnum]
          | some v => simp [hnum]
      | null => simp [hdr]
      | bool b => simp [hdr]
      | num q => simp [hdr]
      | str s => simp [hdr]
      | arr xs => simp [hdr]
  | null => simp
  | bool b => simp
  | num q => simp
  | str s => simp
  | arr xs => simp

/-- C5 (amended): the simulator returns
`clamp(round(previous + noise + mean_reversion * (base - previous)), 0, 100)`,
with `previous` falling back to `base` when the snapshot holds no numeric
value under the driver's name; with `mean_reversion = 1` and
`volatility = 0` (hence `noise = 0`) one step lands on
`clamp(round(base), 0, 100)`, which equals `base` for any integer base in
`[0, 100]` — in particular for the shipped base 50 — regardless of the
starting value. -/
theorem simulate_driver_spec :
    (∀ (name : String) (prev : Json) (base volatility mr noise : ℚ),
        simulate_driver name prev base volatility mr noise
          = max 0 (min 100 (pyRound
              (get_prev_driver_value prev name base + noise
                + mr * (base - get_prev_driver_value prev name base)))))
    ∧ (∀ (prev : Json) (name : String) (base : ℚ),
        prev_num prev name = none →
        get_prev_driver_value prev name base = base)
    ∧ (∀ (name : String) (prev : Json) (base : ℚ),
        simulate_driver name prev base 0 1 0
          = max 0 (min 100 (pyRound base)))
    ∧ (∀ (name : String) (prev : Json) (b : ℤ), 0 ≤ b → b ≤ 100 →
        simulate_driver name prev (b : ℚ) 0 1 0 = b) := by
  have main : ∀ (name : String) (prev : Json) (base volatility mr noise : ℚ),
      simulate_driver name prev base volatility mr noise
        = max 0 (min 100 (pyRound
            (get_prev_driver_value prev name base + noise
              + mr * (base - get_prev_driver_value prev name base)))) :=
    fun name prev base volatility mr noise => rfl
  have snap : ∀ (name : String) (prev : Json) (base : ℚ),
      simulate_driver name prev base 0 1 0
        = max 0 (min 100 (pyRound base)) := by
    intro name prev base
    rw [main]
    congr 1
    congr 1
    congr 1
    ring
  refine ⟨main, ?_, snap, ?_⟩
  · intro prev name base h
    rw [get_prev_driver_value_eq, h]
    rfl
  · intro name prev b h0 h100
    rw [snap, pyRound_intCast]
    omega

theorem simulate_driver_spec_witness :
    simulate_driver "news" (Json.obj []) ((50 : ℤ) : ℚ) 0 1 0 = 50 :=
  simulate_driver_spec.2.2.2 "news" (Json.obj []) 50 (by decide) (by decide)

/-- C5 counterexample: with `base = 200`, `mean_reversion = 1` and
`volatility = 0` the step returns 100, not `base`, because the result is
clamped to `[0, 100]`. -/
theorem simulate_driver_counterexample :
    simulate_driver "news" (Json.obj []) 200 0 1 0 = 100
    ∧ (100 : ℤ) ≠ 200 := by
  constructor
  · norm_num [simulate_driver, get_prev_driver_value, objGet, pyRound]
  · decide

/-- C6: `compute_deltas` crashes (`AttributeError`, modelled `none`) when
the previous state's `"drivers"` entry is not a dict, instead of reporting
delta 0; when `"drivers"` is a dict it yields, for every current driver,
`round(current - previous)` on a numeric previous value and 0 otherwise —
in particular 15 for current 55 against previous 40, and 0 for every
driver when there is no previous snapshot. -/
theorem compute_deltas_spec :
    compute_deltas [("fear_greed", 55)] (Json.obj [("drivers", Json.num 7)])
      = none
    ∧ compute_deltas [("fear_greed", 55)]
        (Json.obj [("drivers", Json.obj [("fear_greed", Json.num 40)])])
      = some [("fear_greed", 15)]
    ∧ (∀ current : List (String × ℤ),
        compute_deltas current (Json.obj [])
          = some (current.map (fun p => (p.1, 0))))
    ∧ (∀ (current : List (String × ℤ)) (pk : List (String × Json)),
        compute_deltas current (Json.obj [("drivers", Json.obj pk)])
          = some (current.map (fun p =>
              (p.1, match (objGet pk p.1).bind jsonNumVal with
                    | some q => pyRound ((p.2 : ℚ) - q)
                    | none => 0)))) := by
  refine ⟨rfl, ?_, ?_, ?_⟩
  · norm_num [compute_deltas, objGet, jsonNumVal, pyRound]
  · intro current
    simp [compute_deltas, objGet]
  · intro current pk
    simp [compute_deltas, objGet]

/-- C9 counterexample: a state file holding the well-formed JSON value `0`
(wrong shape for a snapshot) is returned as-is by `load_previous_state`,
not replaced by the empty snapshot. -/
theorem load_previous_state_counterexample :
    load_previous_state (FileRead.content (Json.num 0)) = Json.num 0
    ∧ Json.num 0 ≠ Json.obj [] :=
  ⟨rfl, fun h => Json.noConfusion h⟩

/-- C9 (amended): neither loader raises; `load_previous_state` returns the
empty snapshot on a missing, unreadable or malformed file but returns
successfully parsed JSON unchanged, even of the wrong shape; `load_history`
returns an empty list of points on a missing, unreadable or malformed file
and on every parsed JSON that is not a dict with a `"points"` list, and the
stored list otherwise. -/
theorem load_state_history_spec :
    (∀ f : FileRead, (∀ j, f ≠ FileRead.content j) →
        load_previous_state f = Json.obj [] ∧ load_history f = [])
    ∧ (∀ j : Json, load_previous_state (.content j) = j)
    ∧ (∀ j : Json, (∀ kvs, j ≠ Json.obj kvs) →
        load_history (.content j) = [])
    ∧ (∀ kvs : List (String × Json),
        (∀ ps, objGet kvs "points" ≠ some (Json.arr ps)) →
        load_history (.content (.obj kvs)) = [])
    ∧ (∀ (kvs : List (String × Json)) (ps : List Json),
        objGet kvs "points" = some (Json.arr ps) →
        load_history (.content (.obj kvs)) = ps) := by
  refine ⟨?_, fun j => rfl, ?_, ?_, ?_⟩
  · intro f h
    cases f with
    | missing => exact ⟨rfl, rfl⟩
    | unreadable => exact ⟨rfl, rfl⟩
    | malformed => exact ⟨rfl, rfl⟩
    | content j => exact absurd rfl (h j)
  · intro j h
    cases j with
    | obj kvs => exact absurd rfl (h kvs)
    | null => rfl
    | bool b => rfl
    | num q => rfl
    | str s => rfl
    | arr xs => rfl
  · intro kvs h
    cases hp : objGet kvs "points" with
    | none => simp [load_history, hp]
    | some j =>
        cases j with
        | arr ps => exact absurd hp (h ps)
        | null => simp [load_history, hp]
        | bool b => simp [load_history, hp]
        | num q => simp [load_history, hp]
        | str s => simp [load_history, hp]
        | obj kvs2 => simp [load_history, hp]
  · intro kvs ps h
    simp [load_history, h]

theorem load_state_history_spec_witness :
    load_previous_state FileRead.missing = Json.obj []
    ∧ load_history FileRead.missing = [] :=
  load_state_history_spec.1 FileRead.missing
    (fun j h => FileRead.noConfusion h)

theorem get_fear_greed_bounds (o : Option ℤ)
    (h : ∀ v, o = some v → 0 ≤ v ∧ v ≤ 100) :
    0 ≤ get_fear_greed o ∧ get_fear_greed o ≤ 100 := by
  cases o with
  | none => simp [get_fear_greed]
  | some v => simpa [get_fear_greed] using h v rfl

theorem get_news_sentiment_bounds (p : Json) (n : ℚ) :
    0 ≤ get_news_sentiment p n ∧ get_news_sentiment p n ≤ 100 := by
  unfold get_news_sentiment
  exact simulate_driver_bounds _ _ _ _ _ _

theorem get_social_sentiment_bounds (p : Json) (n : ℚ) :
    0 ≤ get_social_sentiment p n ∧ get_social_sentiment p n ≤ 100 := by
  unfold get_social_sentiment
  exact simulate_driver_bounds _ _ _ _ _ _

theorem get_onchain_sentiment_bounds (p : Json) (n : ℚ) :
    0 ≤ get_onchain_sentiment p n ∧ get_onchain_sentiment p n ≤ 100 := by
  unfold get_onchain_sentiment
  exact simulate_driver_bounds _ _ _ _ _ _

/-- C1 counterexample: if the fear/greed fetch parses the value 150, the
payload's fear_greed driver record carries the value 150, outside
`[0, 100]` (the source applies no clamp to this signal). -/
theorem build_fear_greed_counterexample :
    ((build_sentiment_payload cexInput (Json.obj []) []).map
        (fun r => r.payload.d_fear_greed.value)) = some 150
    ∧ ¬ ((150 : ℤ) ≤ 100) := by
  constructor
  · norm_num [build_sentiment_payload, cexInput, get_fear_greed,
      get_btc_price_change, get_news_sentiment, get_social_sentiment,
      get_onchain_sentiment, simulate_driver, get_prev_driver_value,
      objGet, jsonNumVal, price_action_sentiment, get_liquidity_sentiment,
      compute_deltas, compute_total, codeWeights, pyRound, update_history]
  · decide

/-- C1 (amended): provided every value the fear/greed index source returns
lies in `[0, 100]`, each of the six driver values placed in the payload and
the aggregate total lie in `[0, 100]`, for every previous state, history,
fetch result and random draw. -/
theorem build_values_in_range :
    ∀ (inp : Inputs) (prev : Json) (hist : List HistEntry) (r : RunResult),
      (∀ v, inp.fgFetch = some v → 0 ≤ v ∧ v ≤ 100) →
      build_sentiment_payload inp prev hist = some r →
      (0 ≤ r.payload.d_fear_greed.value ∧ r.payload.d_fear_greed.value ≤ 100)
      ∧ (0 ≤ r.payload.d_news.value ∧ r.payload.d_news.value ≤ 100)
      ∧ (0 ≤ r.payload.d_social.value ∧ r.payload.d_social.value ≤ 100)
      ∧ (0 ≤ r.payload.d_price_action.value
          ∧ r.payload.d_price_action.value ≤ 100)
      ∧ (0 ≤ r.payload.d_on_chain.value ∧ r.payload.d_on_chain.value ≤ 100)
      ∧ (0 ≤ r.payload.d_liquidity.value ∧ r.payload.d_liquidity.value ≤ 100)
      ∧ (0 ≤ r.payload.total_value ∧ r.payload.total_value ≤ 100) := by
  intro inp prev hist r hfg h
  simp only [build_sentiment_payload] at h
  split at h
  · exact absurd h (by simp)
  · injection h with h
    subst h
    refine ⟨get_fear_greed_bounds _ hfg, get_news_sentiment_bounds _ _,
      get_social_sentiment_bounds _ _, price_action_sentiment_bounds _,
      get_onchain_sentiment_bounds _ _, get_liquidity_sentiment_bounds _,
      ?_⟩
    exact compute_total_codeWeights_bounds _
      (get_fear_greed_bounds _ hfg) (get_news_sentiment_bounds _ _)
      (get_social_sentiment_bounds _ _) (price_action_sentiment_bounds _)
      (get_onchain_sentiment_bounds _ _) (get_liquidity_sentiment_bounds _)

theorem build_inpWit_eq :
    build_sentiment_payload inpWit (Json.obj []) [] = some runWit := by
  norm_num [build_sentiment_payload, inpWit, get_fear_greed,
    get_btc_price_change, get_news_sentiment, get_social_sentiment,
    get_onchain_sentiment, simulate_driver, get_prev_driver_value,
    objGet, jsonNumVal, price_action_sentiment, get_liquidity_sentiment,
    compute_deltas, compute_total, codeWeights, pyRound, update_history,
    runWit, valsWit, histE0, List.find?]
  decide

theorem build_values_in_range_witness :
    (0 ≤ runWit.payload.d_fear_greed.value
      ∧ runWit.payload.d_fear_greed.value ≤ 100)
    ∧ (0 ≤ runWit.payload.d_news.value ∧ runWit.payload.d_news.value ≤ 100)
    ∧ (0 ≤ runWit.payload.d_social.value
      ∧ runWit.payload.d_social.value ≤ 100)
    ∧ (0 ≤ runWit.payload.d_price_action.value
      ∧ runWit.payload.d_price_action.value ≤ 100)
    ∧ (0 ≤ runWit.payload.d_on_chain.value
      ∧ runWit.payload.d_on_chain.value ≤ 100)
    ∧ (0 ≤ runWit.payload.d_liquidity.value
      ∧ runWit.payload.d_liquidity.value ≤ 100)
    ∧ (0 ≤ runWit.payload.total_value ∧ runWit.payload.total_value ≤ 100) :=
  build_values_in_range inpWit (Json.obj []) [] runWit
    (fun v h => by simp [inpWit] at h) build_inpWit_eq

/-- C8: on a first-ever run (empty snapshot, empty history) the aggregator
always returns a payload, every one of the six driver records carries
delta 0, and the persisted history log has length exactly 1 — whatever the
fetches and random draws return. -/
theorem build_first_run :
    ∀ inp : Inputs,
      (build_sentiment_payload inp (Json.obj []) []).isSome = true
      ∧ (build_sentiment_payload inp (Json.obj []) []).map
          (fun r => (r.payload.d_fear_greed.delta, r.payload.d_news.delta,
            r.payload.d_social.delta, r.payload.d_price_action.delta,
            r.payload.d_on_chain.delta, r.payload.d_liquidity.delta,
            r.newHistory.length))
        = some (0, 0, 0, 0, 0, 0, 1) := by
  intro inp
  constructor <;>
    simp [build_sentiment_payload, compute_deltas, objGet, update_history,
      List.find?]

/-- C10: the legacy convenience fields of every returned payload agree with
the structured records: `value` equals `total.value`, and `fear_greed`,
`news_sentiment`, `price_sentiment` and `liquidity_sentiment` equal the
`value` fields of the corresponding driver records. -/
theorem build_legacy_fields :
    ∀ (inp : Inputs) (prev : Json) (hist : List HistEntry) (r : RunResult),
      build_sentiment_payload inp prev hist = some r →
      r.payload.value = r.payload.total_value
      ∧ r.payload.fear_greed = r.payload.d_fear_greed.value
      ∧ r.payload.news_sentiment = r.payload.d_news.value
      ∧ r.payload.price_sentiment = r.payload.d_price_action.value
      ∧ r.payload.liquidity_sentiment = r.payload.d_liquidity.value := by
  intro inp prev hist r h
  simp only [build_sentiment_payload] at h
  split at h
  · exact absurd h (by simp)
  · injection h with h
    subst h
    exact ⟨rfl, rfl, rfl, rfl, rfl⟩

theorem build_legacy_fields_witness :
    runWit.payload.value = runWit.payload.total_value
    ∧ runWit.payload.fear_greed = runWit.payload.d_fear_greed.value
    ∧ runWit.payload.news_sentiment = runWit.payload.d_news.value
    ∧ runWit.payload.price_sentiment = runWit.payload.d_price_action.value
    ∧ runWit.payload.liquidity_sentiment
      = runWit.payload.d_liquidity.value :=
  build_legacy_fields inpWit (Json.obj []) [] runWit build_inpWit_eq

end Sentiment
